import Mathlib

/-!
Verification development for the OCEAN output parser
(`electronicparsers/ocean/parser.py`).

The Python source is shallowly embedded: each parser method becomes a Lean
function over explicit data.  In-place section creation (`m_create`, attribute
assignment) is modelled by functional state passing; a Python exception that
would propagate out of the parser is modelled by `Except PyErr`.  The host
platform pieces the parser relies on (the JSON document produced by
`json.load`, the text-parser results, the directory listing from
`os.listdir`) are supplied as an explicit environment.
-/

namespace Ocean

/-- Numeric values appearing in the parsed files (floats in Python); modelled
as rationals, which is adequate because the parser only moves them around. -/
abbrev Val := ℚ

/-- Python exceptions that can escape the parser.  The payload of `keyError`
is the offending key rendered as Python would render it. -/
inductive PyErr where
  | keyError : String → PyErr
  | indexError : PyErr
  | typeError : PyErr
  | valueError : PyErr
  | attributeError : PyErr
deriving DecidableEq, Repr

/-- Log messages emitted through `self.logger`. -/
inductive LogMsg where
  | logError : String → LogMsg
  | logWarning : String → LogMsg
deriving DecidableEq, Repr

/-- A JSON value as produced by `json.load` (ints and floats kept apart,
since Python list indexing accepts ints but not floats). -/
inductive JVal where
  | null : JVal
  | bool : Bool → JVal
  | int : Int → JVal
  | num : Val → JVal
  | str : String → JVal
  | arr : List JVal → JVal
  | obj : List (String × JVal) → JVal

instance : Inhabited JVal := ⟨JVal.null⟩

namespace JVal

/-- First-match association-list lookup (Python dicts have unique keys, so
this coincides with dict lookup on documents coming from `json.load`). -/
def assoc : List (String × JVal) → String → Option JVal
  | [], _ => none
  | (a, b) :: rest, k => if a = k then some b else assoc rest k

/-- Python `d[k]` on a JSON value: `KeyError` on a missing key of a dict,
`TypeError` when subscripting a non-dict with a string key. -/
def getI : JVal → String → Except PyErr JVal
  | obj l, k =>
    match assoc l k with
    | some v => Except.ok v
    | none => Except.error (PyErr.keyError k)
  | _, _ => Except.error PyErr.typeError

/-- Python `d.get(k)`: `none` for a missing key; `AttributeError` when the
receiver is not a dict. -/
def getM : JVal → String → Except PyErr (Option JVal)
  | obj l, k => Except.ok (assoc l k)
  | _, _ => Except.error PyErr.attributeError

/-- Python `d.keys()` (in insertion order); `AttributeError` on non-dicts. -/
def objKeys : JVal → Except PyErr (List String)
  | obj l => Except.ok (l.map (fun p => p.1))
  | _ => Except.error PyErr.attributeError

/-- Python truthiness of a JSON value. -/
def truthy : JVal → Bool
  | null => false
  | bool b => b
  | int i => decide (i ≠ 0)
  | num q => decide (q ≠ 0)
  | str s => decide (s ≠ "")
  | arr l => decide (¬ l.isEmpty)
  | obj l => decide (¬ l.isEmpty)

end JVal

/-! ### Python string primitives

Python's string operations are modelled directly on the code-point list of
the string (`String.data`), by structural recursion, so that every
definition evaluates inside the kernel. -/

/-- Python `s.startswith(p)`: code-point prefix test. -/
def pyStartsWith (s p : String) : Bool :=
  decide (s.data.take p.data.length = p.data)

/-- Python `s.endswith(p)`: code-point suffix test. -/
def pyEndsWith (s p : String) : Bool :=
  decide (s.data.drop (s.data.length - p.data.length) = p.data)

/-- Python `s[-n:]`: the last `n` code points (the whole string when it is
shorter than `n`). -/
def pyTakeRight (s : String) (n : Nat) : String :=
  String.mk (s.data.drop (s.data.length - n))

/-- Python string comparison `a <= b`: lexicographic by code point. -/
def charListLe : List Char → List Char → Bool
  | [], _ => true
  | _ :: _, [] => false
  | a :: as, b :: bs => if a = b then charListLe as bs else decide (a < b)

/-- Python `a <= b` on strings. -/
def pyStrLe (a b : String) : Bool :=
  charListLe a.data b.data

/-- Insert into an ascending list, keeping earlier elements first on ties. -/
def insertSorted (x : String) : List String → List String
  | [] => [x]
  | y :: ys => if pyStrLe x y then x :: y :: ys else y :: insertSorted x ys

/-- Python `list.sort()` on strings: the ascending reordering (string
comparison is a linear order, so the result is the unique sorted
rearrangement). -/
def pySorted : List String → List String
  | [] => []
  | x :: xs => insertSorted x (pySorted xs)

/-- Splitting worker for `pySplitSpace`. -/
def splitSpaceAux : List Char → List Char → List String
  | [], acc => [String.mk acc.reverse]
  | c :: cs, acc =>
    if c = ' ' then String.mk acc.reverse :: splitSpaceAux cs []
    else splitSpaceAux cs (c :: acc)

/-- Python `s.split(' ')`: split at every single space character. -/
def pySplitSpace (s : String) : List String :=
  splitSpaceAux s.data []

/-- Python whitespace test for `int(s)` stripping. -/
def pyIsSpace (c : Char) : Bool :=
  c = ' ' ∨ c = '\t' ∨ c = '\n' ∨ c = '\r'

/-- Strip leading and trailing whitespace from a code-point list. -/
def pyStripChars (l : List Char) : List Char :=
  ((l.dropWhile pyIsSpace).reverse.dropWhile pyIsSpace).reverse

/-- One decimal digit. -/
def charDigit (c : Char) : Option Nat :=
  if 48 ≤ c.toNat ∧ c.toNat ≤ 57 then some (c.toNat - 48) else none

/-- Decimal digit-string value accumulator (`none` on a non-digit). -/
def digitsVal : List Char → Nat → Option Nat
  | [], acc => some acc
  | c :: cs, acc =>
    match charDigit c with
    | some d => digitsVal cs (acc * 10 + d)
    | none => none

/-- Parse an optionally signed decimal integer from a code-point list. -/
def parseIntChars : List Char → Option Int
  | [] => none
  | c :: cs =>
    if c = '-' then
      match cs with
      | [] => none
      | _ => (digitsVal cs 0).map (fun n => -(n : Int))
    else if c = '+' then
      match cs with
      | [] => none
      | _ => (digitsVal cs 0).map (fun n => (n : Int))
    else (digitsVal (c :: cs) 0).map (fun n => (n : Int))

/-- Decimal digits of a natural number (with fuel for structural
recursion; `n + 1` is always enough fuel for `n`). -/
def natDigitsAux : Nat → Nat → List Char
  | 0, _ => []
  | fuel + 1, n =>
    if n < 10 then [Char.ofNat (48 + n)]
    else natDigitsAux fuel (n / 10) ++ [Char.ofNat (48 + n % 10)]

/-- Python `str(n)` for a natural number. -/
def pyNatStr (n : Nat) : String :=
  String.mk (natDigitsAux (n + 1) n)

/-- Python `str(i)` for an integer. -/
def pyIntStr (i : Int) : String :=
  if i < 0 then "-" ++ pyNatStr i.natAbs else pyNatStr i.toNat

/-- `sep.join(parts)`. -/
def joinWith (sep : String) : List String → String
  | [] => ""
  | [x] => x
  | x :: y :: xs => x ++ sep ++ joinWith sep (y :: xs)

/-- Python `s.upper()` (ASCII data only, as in these files). -/
def pyToUpper (s : String) : String :=
  String.mk (s.data.map Char.toUpper)

/-- Truthiness of the result of `d.get(k)` (`not d.get(k)` in the source):
a missing key (`None`) is falsy. -/
def pyTruthyO (o : Option JVal) : Bool :=
  match o with
  | none => false
  | some v => v.truthy

/-- Python list indexing `l[i]` with negative-index wrap-around and
`IndexError` out of range. -/
def pyIndex {α : Type} (l : List α) (i : Int) : Except PyErr α :=
  let j : Int := if i < 0 then i + l.length else i
  if h : 0 ≤ j ∧ j.toNat < l.length then Except.ok (l.get ⟨j.toNat, h.2⟩)
  else Except.error PyErr.indexError

/-- Python `l[-1]`. -/
def pyLast {α : Type} (l : List α) : Except PyErr α :=
  pyIndex l (-1)

/-- Python slice `l[i:]` (negative start clamps from the end). -/
def pySliceFrom {α : Type} (l : List α) (i : Int) : List α :=
  if i < 0 then l.drop (max 0 ((l.length : Int) + i)).toNat
  else l.drop i.toNat

/-- Python `range(lo, hi)` over integers. -/
def intRange (lo hi : Int) : List Int :=
  (List.range (hi - lo).toNat).map (fun (k : Nat) => lo + (k : Int))

/-- Python `int()` applied to a float: truncation toward zero. -/
def pyTruncInt (q : Val) : Int :=
  q.num.tdiv (q.den : Int)

/-- Python `int(s)` on a string: parse an optionally signed integer after
stripping surrounding whitespace, `ValueError` otherwise. -/
def pyIntOfString (s : String) : Except PyErr Int :=
  match parseIntChars (pyStripChars s.data) with
  | some i => Except.ok i
  | none => Except.error PyErr.valueError

/-- Python `str` of a list of ints, e.g. `str([1, 0]) = "[1, 0]"`. -/
def pyListStr (l : List Int) : String :=
  "[" ++ joinWith ", " (l.map pyIntStr) ++ "]"

/-- Python `l[-2:]` on a list of ints. -/
def pyTakeLast2 (l : List Int) : List Int :=
  l.drop (l.length - 2)

/-- First-match lookup in a string-to-string dict literal. -/
def mapLookup (m : List (String × String)) (k : String) : Option String :=
  match m with
  | [] => none
  | (a, b) :: rest => if a = k then some b else mapLookup rest k

/-- Python `d.get(x)` on a string-to-string dict where `x` is an arbitrary
JSON value (possibly `None`): non-string keys simply yield `None`. -/
def dctGet (m : List (String × String)) (k : Option JVal) : Option String :=
  match k with
  | some (JVal.str s) => mapLookup m s
  | _ => none

/-- Render the key of a failed dict subscript the way Python's `KeyError`
message would name it (only the string/None cases are ever exercised). -/
def pyKeyName : Option JVal → String
  | some (JVal.str s) => s
  | none => "None"
  | some _ => "<unhashable>"

/-- Python `d[x]` on a string-to-string dict literal with an arbitrary key
value: `KeyError` unless `x` is a string present in the dict. -/
def dictGetI (m : List (String × String)) (k : Option JVal) : Except PyErr String :=
  match k with
  | some (JVal.str s) =>
    match mapLookup m s with
    | some v => Except.ok v
    | none => Except.error (PyErr.keyError s)
  | other => Except.error (PyErr.keyError (pyKeyName other))

/-- Python `d[k]` on a string-to-string dict literal with a string key. -/
def dictGetS (m : List (String × String)) (k : String) : Except PyErr String :=
  match mapLookup m k with
  | some v => Except.ok v
  | none => Except.error (PyErr.keyError k)

/-- Using a missing optional value (`None` in Python) in a context that
needs it (subscripting, `len`, arithmetic) raises a `TypeError`. -/
def orTypeError {α : Type} : Option α → Except PyErr α
  | none => Except.error PyErr.typeError
  | some a => Except.ok a

/-- Python `o.upper()`-style access on an optional value that must be a
string (`AttributeError` on `None` or a non-string). -/
def asPyStr : Option JVal → Except PyErr String
  | some (JVal.str s) => Except.ok s
  | _ => Except.error PyErr.attributeError

/-- Iterating a JSON value that must be a list (`TypeError` otherwise). -/
def asPyArr : JVal → Except PyErr (List JVal)
  | JVal.arr l => Except.ok l
  | _ => Except.error PyErr.typeError

/-- Python `l[x]` on a list of strings where `x` is a JSON value: ints (and
bools, which are ints in Python) index the list, anything else raises
`TypeError`. -/
def pyIndexJ (l : List String) (v : Option JVal) : Except PyErr String :=
  match v with
  | some (JVal.int i) => pyIndex l i
  | some (JVal.bool b) => pyIndex l (if b then 1 else 0)
  | _ => Except.error PyErr.typeError

/-- Sequential effectful map, the shape of every per-element loop in the
source (a Python `for`/comprehension that can raise). -/
def mapME {α β : Type} (f : α → Except PyErr β) : List α → Except PyErr (List β)
  | [] => Except.ok []
  | a :: as => do
    let b ← f a
    let bs ← mapME f as
    Except.ok (b :: bs)

/-- `ase.data.chemical_symbols` (external data table used by
`parse_system`). -/
def chemical_symbols : List String :=
  ["X", "H", "He", "Li", "Be", "B", "C", "N", "O", "F", "Ne",
   "Na", "Mg", "Al", "Si", "P", "S", "Cl", "Ar", "K", "Ca",
   "Sc", "Ti", "V", "Cr", "Mn", "Fe", "Co", "Ni", "Cu", "Zn",
   "Ga", "Ge", "As", "Se", "Br", "Kr", "Rb", "Sr", "Y", "Zr",
   "Nb", "Mo", "Tc", "Ru", "Rh", "Pd", "Ag", "Cd", "In", "Sn",
   "Sb", "Te", "I", "Xe", "Cs", "Ba", "La", "Ce", "Pr", "Nd",
   "Pm", "Sm", "Eu", "Gd", "Tb", "Dy", "Ho", "Er", "Tm", "Yb",
   "Lu", "Hf", "Ta", "W", "Re", "Os", "Ir", "Pt", "Au", "Hg",
   "Tl", "Pb", "Bi", "Po", "At", "Rn", "Fr", "Ra", "Ac", "Th",
   "Pa", "U", "Np", "Pu", "Am", "Cm", "Bk", "Cf", "Es", "Fm",
   "Md", "No", "Lr", "Rf", "Db", "Sg", "Bh", "Hs", "Mt", "Ds",
   "Rg", "Cn", "Nh", "Fl", "Mc", "Lv", "Ts", "Og"]

/-- `self._dft_code_map`. -/
def dftCodeMap : List (String × String) :=
  [("qe", "QuantumESPRESSO"), ("abi", "ABINIT")]

/-- `self._type_bse_map`. -/
def typeBseMap : List (String × String) :=
  [("haydock", "lanczos-haydock"), ("gmres", "gmres")]

/-- `self.mode_bse`. -/
def modeBse : List String :=
  ["emission", "absorption"]

/-- `self._core_level_map`. -/
def coreLevelMap : List (String × String) :=
  [("[1, 0]", "K"), ("[2, 1]", "L23")]

/-! ## The NOMAD section data model

The schema classes populated by the parser are opaque record types with
create/append semantics.  Each is modelled as a structure of optional fields
(unset quantities are `none`); repeating subsections are lists in creation
order.  Fields holding configuration values that the parser merely copies
keep the raw `JVal`. -/

/-- `Atoms` section. -/
structure AtomsS where
  lattice_vectors : Option JVal := none
  periodic : Option (List Bool) := none
  lattice_vectors_reciprocal : Option JVal := none
  labels : Option (List String) := none
  positions : Option JVal := none

/-- `System` section. -/
structure SystemS where
  atoms : List AtomsS := []

/-- `Photon` section. -/
structure PhotonS where
  multipole_type : Option String := none
  polarization : Option (List Val) := none
  momentum_transfer : Option (List Val) := none
  energy : Option Val := none
deriving DecidableEq

/-- `CoreHole` section. -/
structure CoreHoleS where
  mode : Option String := none
  solver : Option String := none
  edge : Option String := none
  broadening : Option JVal := none

/-- `KMesh` section. -/
structure KMeshS where
  grid : Option JVal := none

/-- `BSE` section.  Note: `type` is read by `parse_method` (lines 139 and
144 of the source) but never assigned anywhere in the parser, so it keeps
its unset default. -/
structure BSES where
  type : Option String := none
  n_empty_states : Option JVal := none
  screening_type : Option JVal := none
  dielectric_infinity : Option JVal := none
  n_empty_states_screening : Option JVal := none
  k_mesh_screening : Option KMeshS := none
  core_hole : List CoreHoleS := []

/-- `x_ocean_core_haydock_parameters` section. -/
structure HaydockS where
  x_ocean_converge_spacing : Option JVal := none
  x_ocean_converge_thresh : Option JVal := none
  x_ocean_niter : Option JVal := none

/-- `x_ocean_core_gmres_parameters` section; the `setattr` loop is modelled
as an association list of attribute name to value. -/
structure GmresS where
  attrs : List (String × Option JVal) := []

/-- `x_ocean_bse_parameters` section. -/
structure OceanBseParamsS where
  x_ocean_screen_radius : Option JVal := none
  x_ocean_xmesh : Option JVal := none
  haydock : List HaydockS := []
  gmres : List GmresS := []

/-- `x_ocean_screen_parameters` section; the two `setattr` loops are
modelled as an association list of attribute name to value. -/
structure ScreenParamsS where
  attrs : List (String × Option JVal) := []
  x_ocean_model_flavor : Option JVal := none

/-- `Method` section.  `starting_method_ref` points at `sec_run.method[0]`;
since the referenced section is immutable once the reference is made, the
reference is modelled as a presence flag. -/
structure MethodS where
  photon : List PhotonS := []
  starting_method_ref : Option Unit := none
  k_mesh : List KMeshS := []
  bse : List BSES := []
  ocean_bse : List OceanBseParamsS := []
  ocean_screen : List ScreenParamsS := []
  x_ocean_edges : Option (List (List Int)) := none

/-- `Spectra` section. -/
structure SpectraS where
  type : Option String := none
  n_energies : Option Nat := none
  excitation_energies : Option (List Val) := none
  intensities : Option (List Val) := none
deriving DecidableEq

/-- One cell of the tridiagonal matrix assembled in `parse_scc`: the first
row stores a whole record in its first column (`[data_lancz[1], 0.0]`),
later rows store scalars. -/
inductive PyCell where
  | num : Val → PyCell
  | arr : List Val → PyCell
deriving DecidableEq

/-- `x_ocean_lanczos_results` section. -/
structure LanczosResS where
  x_ocean_n_tridiagonal_matrix : Option Int := none
  x_ocean_scaling_factor : Option Val := none
  x_ocean_tridiagonal_matrix : Option (List (PyCell × Val)) := none
  x_ocean_eigenvalues : Option (List (List Val)) := none
deriving DecidableEq

/-- `Calculation` section.  `system_ref`/`method_ref` reference
`sec_run.system[-1]`/`sec_run.method[-1]`; modelled as presence flags. -/
structure CalculationS where
  system_ref : Option Unit := none
  method_ref : Option Unit := none
  spectra : List SpectraS := []
  lanczos : List LanczosResS := []
deriving DecidableEq

/-- `Program` section. -/
structure ProgramS where
  name : Option String := none
  version : Option JVal := none
  x_ocean_commit_hash : Option JVal := none
  x_ocean_original_dft_code : Option String := none

/-- `Run` section. -/
structure RunS where
  program : List ProgramS := []
  system : List SystemS := []
  method : List MethodS := []
  calculation : List CalculationS := []

/-- The `workflow2` value of a child archive (`SinglePoint()`). -/
inductive ChildW where
  | singlePoint : ChildW
deriving DecidableEq

/-- A child entry archive. -/
structure Archive where
  run : List RunS := []
  workflow2 : Option ChildW := none

/-- A section referenced by a workflow `Link`; the referenced sections are
immutable once linked, so the reference is modelled by the section value. -/
inductive SectionRef where
  | systemRef : SystemS → SectionRef
  | methodRef : MethodS → SectionRef
  | calcRef : CalculationS → SectionRef

/-- `Link`. -/
structure LinkS where
  name : String
  sec : SectionRef

/-- `TaskReference`; `task` holds the child's `workflow2`. -/
structure TaskRef where
  task : ChildW
  inputs : List LinkS := []
  outputs : List LinkS := []

/-- `PhotonPolarizationResults`. -/
structure PhotonPolResultsS where
  n_polarizations : Option Nat := none
  spectrum_polarization : List SpectraS := []

/-- The `PhotonPolarization` workflow.  Its `method` field is initialised to
an empty `PhotonPolarizationMethod()` and then overwritten with the
aggregate run's method section (`workflow.method = input_method`), so only
the final value is modelled. -/
structure PhotonPolW where
  method : Option MethodS := none
  results : PhotonPolResultsS := {}
  inputs : List LinkS := []
  outputs : List LinkS := []
  tasks : List TaskRef := []

/-- Result of the photon text parser (`PhotonParser` quantities); a quantity
with no match is `none`. -/
structure PhotonFileData where
  operator : Option String := none
  vectors : Option (List (List Val)) := none
  photon_energy : Option Val := none

/-- The fixed snapshot the parser runs over: the directory listing (in
`os.listdir` order), the main JSON document (`none` when `json.load`
raises), and the per-file results of the three auxiliary text parsers. -/
structure Env where
  listing : List String
  mainJson : Option JVal
  spectraFile : String → Option (List (List Val))
  photonFile : String → PhotonFileData
  lanczosFile : String → Option (List (List Val))

/-! ## The parser, method by method -/

/-- `OceanParser.parse_system` (lines 85-98): builds the `System`/`Atoms`
sections from `self.data.get('structure')`.  Unit conversions
(`* ureg.bohr`, `/ ureg.bohr`) are treated as the identity on the stored
value; applying them to a non-array value is modelled as a `TypeError`. -/
def parse_system (s : JVal) : Except PyErr SystemS := do
  let avecsO ← s.getM "avecs"
  let (lv, per) ←
    if pyTruthyO avecsO then
      match avecsO with
      | some (JVal.arr a) =>
        -- periodic = [data.get('avecs')[:] is not None] * 3, i.e. [True] * 3
        Except.ok (some (JVal.arr a), some [true, true, true])
      | _ => Except.error PyErr.typeError
    else Except.ok (none, none)
  let bvecsO ← s.getM "bvecs"
  let lvr ←
    if pyTruthyO bvecsO then
      match bvecsO with
      | some (JVal.arr a) => Except.ok (some (JVal.arr a))
      | _ => Except.error PyErr.typeError
    else Except.ok none
  let znuclO ← s.getM "znucl"
  let typatO ← s.getM "typat"
  let labels ←
    if pyTruthyO znuclO && pyTruthyO typatO then do
      let znucl ← match znuclO with
        | some (JVal.arr a) => Except.ok a
        | _ => Except.error PyErr.typeError
      let typat ← match typatO with
        | some (JVal.arr a) => Except.ok a
        | _ => Except.error PyErr.typeError
      let ls ← mapME (fun n_at => do
        let n ← match n_at with
          | JVal.int i => Except.ok i
          | _ => Except.error PyErr.typeError
        let z ← pyIndex znucl (n - 1)
        let zi ← match z with
          | JVal.int i => Except.ok i
          | JVal.num q => Except.ok (pyTruncInt q)
          | JVal.str s => pyIntOfString s
          | _ => Except.error PyErr.typeError
        pyIndex chemical_symbols zi) typat
      Except.ok (some ls)
    else Except.ok none
  let xangstO ← s.getM "xangst"
  let pos ←
    if pyTruthyO xangstO then
      match xangstO with
      | some (JVal.arr a) => Except.ok (some (JVal.arr a))
      | _ => Except.error PyErr.typeError
    else Except.ok none
  Except.ok
    { atoms := [{ lattice_vectors := lv, periodic := per,
                  lattice_vectors_reciprocal := lvr, labels := labels,
                  positions := pos }] }

/-- The photon-file discovery of `parse_photon_polarization` (line 105):
files in the working directory whose name starts with `photon` and ends
with the final one character of the spectra filename, in directory-listing
order (no sorting). -/
def photonCandidates (env : Env) (path : String) : List String :=
  env.listing.filter (fun f => pyStartsWith f "photon" && pyEndsWith f (pyTakeRight path 1))

/-- The lanczos-file discovery of `parse_scc` (line 191): files whose name
starts with `abslanc` and ends with the final two characters of the spectra
filename. -/
def lanczosCandidates (env : Env) (path : String) : List String :=
  env.listing.filter (fun f => pyStartsWith f "abslanc" && pyEndsWith f (pyTakeRight path 2))

/-- `OceanParser.parse_photon_polarization` (lines 100-113).  The `Method`
and `Photon` sections are created (line 102) before the photon file is
looked up, so when no file matches the method keeps an empty photon
section.  `get('vectors')` returning `None` makes `None[0]` a `TypeError`;
a missing second vector for a `quad`-family operator is an `IndexError`;
`None * ureg.electron_volt` for a missing energy is a `TypeError`. -/
def parse_photon_polarization (env : Env) (path : String) : Except PyErr MethodS := do
  match photonCandidates env path with
  | [] => Except.ok { photon := [{}] }
  | f :: _ => do
    let pf := env.photonFile f
    let mtype := pf.operator
    let vecs ← orTypeError pf.vectors
    let pol ← pyIndex vecs 0
    let mom ←
      if mtype = some "quad" ∨ mtype = some "NRIXS" ∨ mtype = some "qRaman" then do
        let v1 ← pyIndex vecs 1
        Except.ok (some v1)
      else Except.ok none
    let en ← orTypeError pf.photon_energy
    Except.ok
      { photon := [{ multipole_type := mtype, polarization := some pol,
                     momentum_transfer := mom, energy := some en }] }

/-- The gmres attribute keys of `parse_method` (line 146). -/
def gmresKeys : List String :=
  ["echamp", "elist", "erange", "estyle", "ffff", "gprc", "nloop"]

/-- The screening attribute keys of `parse_method` (lines 151-153). -/
def screenKeys : List String :=
  ["all_augment", "augment", "convertstyle", "dft_energy_range",
   "inversionstyle", "kshift", "mimic_exciting_bands", "shells"]

/-- The screening sub-dictionaries of `parse_method` (lines 154-155). -/
def screenDicts : List String :=
  ["core_offset", "final", "grid"]

/-- The edge-list computation of `parse_method` (lines 163-166):
`[int(x) for x in ed.split(' ')]` for every entry of
`self.data['calc'].get('edges', [])`. -/
def methodEdges (data : JVal) : Except PyErr (List (List Int)) := do
  let calcD ← data.getI "calc"
  let edgesRaw ← calcD.getM "edges"
  let edgesList ← asPyArr (edgesRaw.getD (JVal.arr []))
  mapME (fun x => do
    let s ← asPyStr (some x)
    mapME pyIntOfString (pySplitSpace s)) edgesList

/-- The `CoreHole` construction of `parse_method` (lines 169-173):
`mode` from `self.mode_bse[...strength]`, `solver` from
`self._type_bse_map[...solver]`, `edge` from
`self._core_level_map[str(edges[0][-2:])]`. -/
def coreHoleSection (coreD : JVal) (edges : List (List Int)) : Except PyErr CoreHoleS := do
  let strengthO ← coreD.getM "strength"
  let mode ← pyIndexJ modeBse strengthO
  let solverO ← coreD.getM "solver"
  let solver ← dictGetI typeBseMap solverO
  let e0 ← pyIndex edges 0
  let pair := pyTakeLast2 e0
  let edgeLabel ← dictGetS coreLevelMap (pyListStr pair)
  let broaden ← coreD.getM "broaden"
  Except.ok
    { mode := some mode, solver := some solver,
      edge := some edgeLabel, broadening := broaden }

/-- The `BSE` section fields set by `parse_method` (lines 126-132); `type`
keeps its unset default, since the parser never assigns it. -/
def bseSection (nbands smode eps snbands skmesh : Option JVal) : BSES :=
  { n_empty_states := nbands, screening_type := smode, dielectric_infinity := eps,
    n_empty_states_screening := snbands, k_mesh_screening := some { grid := skmesh } }

/-- One iteration of the gmres `setattr` loop (lines 146-148). -/
def gmresAttr (gD : JVal) (k : String) : Except PyErr (String × Option JVal) := do
  let v ← gD.getM k
  Except.ok ("x_ocean_" ++ k, v)

/-- The solver-specific parameter blocks of `parse_method` (lines
139-148), selected on `sec_bse.type`. -/
def solverBlocksFor (coreD : JVal) (bseType : Option String) :
    Except PyErr (List HaydockS × List GmresS) :=
  if bseType = some "lanczos-haydock" then do
    let hayD ← coreD.getI "haydock"
    let convD ← hayD.getI "converge"
    let sp ← convD.getM "spacing"
    let th ← convD.getM "thresh"
    let ni ← hayD.getM "niter"
    let hay : HaydockS :=
      { x_ocean_converge_spacing := sp, x_ocean_converge_thresh := th,
        x_ocean_niter := ni }
    Except.ok ([hay], ([] : List GmresS))
  else if bseType = some "gmres" then do
    let gD ← coreD.getI "gmres"
    let attrs ← mapME (gmresAttr gD) gmresKeys
    Except.ok (([] : List HaydockS), [({ attrs := attrs } : GmresS)])
  else Except.ok ([], [])

/-- One iteration of the screening `setattr` loop (lines 156-157). -/
def screenAttr (screenD : JVal) (k : String) : Except PyErr (String × Option JVal) := do
  let v ← screenD.getM k
  Except.ok ("x_ocean_" ++ k, v)

/-- One iteration of the screening sub-dictionary loop (lines 158-160). -/
def screenDictAttrs (screenD : JVal) (keys : String) :
    Except PyErr (List (String × Option JVal)) := do
  let sub ← screenD.getI keys
  let subkeys ← sub.objKeys
  mapME (fun sk => do
    let v ← sub.getM sk
    Except.ok ("x_ocean_" ++ keys ++ "_" ++ sk, v)) subkeys

/-- The unset `BSE.type` makes both solver branches dead. -/
theorem bseSection_type (nbands smode eps snbands skmesh : Option JVal) :
    (bseSection nbands smode eps snbands skmesh).type = none := rfl

/-- With the unset type, neither solver block is produced. -/
theorem solverBlocksFor_none (coreD : JVal) :
    solverBlocksFor coreD none = Except.ok ([], []) := rfl

/-- The run-independent part of `OceanParser.parse_method` (lines 115-173),
i.e. everything except the `starting_method_ref` presence flag.  The two
solver-specific branches test `sec_bse.type`, which is never assigned by
the parser, so they compare the unset default. -/
def parse_method_core (data : JVal) : Except PyErr MethodS := do
  -- KMesh section
  let bseD ← data.getI "bse"
  let kgrid ← bseD.getM "kmesh"
  -- BSE section
  let nbands ← bseD.getM "nbands"
  let screenD ← data.getI "screen"
  let smode ← screenD.getM "mode"
  let structD ← data.getI "structure"
  let eps ← structD.getM "epsilon"
  let snbands ← screenD.getM "nbands"
  let skmesh ← screenD.getM "kmesh"
  let bse0 : BSES := bseSection nbands smode eps snbands skmesh
  -- code-specific parameters: BSE
  let coreD ← bseD.getI "core"
  let sradius ← coreD.getM "screen_radius"
  let xmesh ← bseD.getM "xmesh"
  let solverBlocks ← solverBlocksFor coreD bse0.type
  let obse : OceanBseParamsS :=
    { x_ocean_screen_radius := sradius, x_ocean_xmesh := xmesh,
      haydock := solverBlocks.1, gmres := solverBlocks.2 }
  -- screening
  let sAttrs1 ← mapME (screenAttr screenD) screenKeys
  let sAttrs2 ← mapME (screenDictAttrs screenD) screenDicts
  let modelD ← screenD.getI "model"
  let flavor ← modelD.getM "flavor"
  let screenS : ScreenParamsS :=
    { attrs := sAttrs1 ++ sAttrs2.flatten, x_ocean_model_flavor := flavor }
  -- edges
  let edges ← methodEdges data
  -- Core-Hole
  let ch ← coreHoleSection coreD edges
  let bse1 : BSES := { bse0 with core_hole := [ch] }
  Except.ok
    { photon := [], starting_method_ref := none, k_mesh := [{ grid := kgrid }],
      bse := [bse1], ocean_bse := [obse], ocean_screen := [screenS],
      x_ocean_edges := some edges }

/-- The `starting_method_ref` check of `parse_method` (lines 118-119):
`sec_run.m_xpath('method[0].photon')` is truthy exactly when the run
already has a first method section holding a photon subsection. -/
def methodStartRef (sec_run : RunS) : Option Unit :=
  match sec_run.method.head? with
  | some m => if m.photon.isEmpty then none else some ()
  | none => none

/-- `OceanParser.parse_method` (lines 115-173) for the run `archive.run[-1]`:
the xpath check only reads the immutable run, so it commutes with the rest
of the body and is applied to the run-independent core. -/
def parse_method (data : JVal) (sec_run : RunS) : Except PyErr MethodS := do
  let m ← parse_method_core data
  Except.ok { m with starting_method_ref := methodStartRef sec_run }

/-- The absorption-spectra block of `parse_scc` (lines 181-188): column 0
of the parsed table are the excitation energies, column 2 the intensities;
`numpy` column extraction on a malformed table is modelled as an
`IndexError` per short row. -/
def spectraSection (data_spct : List (List Val)) (mode : String) : Except PyErr SpectraS := do
  let energies ← mapME (fun row => pyIndex row 0) data_spct
  let intensities ← mapME (fun row => pyIndex row 2) data_spct
  Except.ok
    { type := some (pyToUpper mode), n_energies := some data_spct.length,
      excitation_energies := some energies, intensities := some intensities }

/-- The lanczos block of `parse_scc` (lines 195-204), applied to the record
list extracted from the matching `abslanc` file. -/
def lanczosSection (data_lancz : List (List Val)) : Except PyErr LanczosResS := do
  let r0 ← pyIndex data_lancz 0
  let f00 ← pyIndex r0 0
  let n_dimension : Int := pyTruncInt f00 + 1
  let sfac ← pyIndex r0 1
  let r1 ← pyIndex data_lancz 1
  let firstRow : PyCell × Val := (PyCell.arr r1, 0)
  let restRows ← mapME (fun n => do
    let rn ← pyIndex data_lancz n
    let a ← pyIndex rn 0
    let b ← pyIndex rn 1
    Except.ok (PyCell.num a, b)) (intRange 2 (n_dimension + 1))
  Except.ok
    { x_ocean_n_tridiagonal_matrix := some n_dimension,
      x_ocean_scaling_factor := some sfac,
      x_ocean_tridiagonal_matrix := some (firstRow :: restRows),
      x_ocean_eigenvalues := some (pySliceFrom data_lancz (n_dimension + 1)) }

/-- `OceanParser.parse_scc` (lines 175-204) for one spectra file `path` of
the run `sec_run`: references to `system[-1]`/`method[-1]`, the spectra
table, and the optional lanczos results.  An unreadable spectra file gives
`self.spectra_parser.data = None` and `len(None)` raises (`TypeError`);
likewise a lanczos file with no extracted records. -/
def parse_scc (env : Env) (data : JVal) (path : String) (sec_run : RunS) :
    Except PyErr CalculationS := do
  let _ ← pyLast sec_run.system
  let _ ← pyLast sec_run.method
  let data_spct ← orTypeError (env.spectraFile path)
  let calcD ← data.getI "calc"
  let modeO ← calcD.getM "mode"
  let mode ← asPyStr modeO
  let spec ← spectraSection data_spct mode
  match lanczosCandidates env path with
  | [] => Except.ok { system_ref := some (), method_ref := some (), spectra := [spec] }
  | f :: _ => do
    let dl ← orTypeError (env.lanczosFile f)
    let lanc ← lanczosSection dl
    Except.ok
      { system_ref := some (), method_ref := some (),
        spectra := [spec], lanczos := [lanc] }

/-- The `Program` section of a child entry (lines 211-215): name, version,
commit hash, and the original DFT code resolved through
`self._dft_code_map.get`. -/
def mkProgram (vdot vhash dprog : Option JVal) : ProgramS :=
  { name := some "OCEAN", version := vdot, x_ocean_commit_hash := vhash,
    x_ocean_original_dft_code := dctGet dftCodeMap dprog }

/-- `OceanParser.parse_spectra_entries` (lines 206-232): builds one child
entry for the spectra file `path`.  In-place section creation is modelled
by threading the run value; the returned log carries the messages emitted
while building this child. -/
def parse_spectra_entries (env : Env) (data : JVal) (path : String) :
    Except PyErr (Archive × List LogMsg) := do
  -- Program
  let versionD ← data.getI "version"
  let vdot ← versionD.getM "."
  let versionD2 ← data.getI "version"
  let vhash ← versionD2.getM "hash"
  let dftD ← data.getI "dft"
  let dprog ← dftD.getM "program"
  let prog : ProgramS := mkProgram vdot vhash dprog
  let run0 : RunS := { program := [prog] }
  -- System
  let structO ← data.getM "structure"
  if pyTruthyO structO = false then
    return ({ run := [run0] },
      [LogMsg.logError "Error finding the structure in the main output file."])
  let sys ← parse_system (structO.getD JVal.null)
  let run1 : RunS := { run0 with system := [sys] }
  -- Method
  let mphoton ← parse_photon_polarization env path
  let run2 : RunS := { run1 with method := [mphoton] }
  let meth ← parse_method data run2
  let run3 : RunS := { run2 with method := run2.method ++ [meth] }
  -- Calculation
  let calcSec ← parse_scc env data path run3
  let run4 : RunS := { run3 with calculation := [calcSec] }
  -- Workflow
  Except.ok ({ run := [run4], workflow2 := some ChildW.singlePoint }, [])

/-- The task loop of `parse_photon_workflow` (lines 258-274).  `idx` is the
running position of the archive in `photon_archive`; Python's
`photon_archive.index(archive)` compares by object identity, and the
archives in the list are distinct objects, so it returns this position.
Section objects are always truthy, so the two truthiness guards on
sections that were just successfully retrieved are collapsed. -/
def photonTasks (istr : SystemS) (imeth : MethodS) :
    List Archive → Nat → Except PyErr (List TaskRef × List SpectraS × List LinkS)
  | [], _ => Except.ok ([], [], [])
  | a :: rest, idx =>
    match a.workflow2 with
    | none => photonTasks istr imeth rest (idx + 1)
    | some w => do
      let lastRun ← pyLast a.run
      let photonMeth ← pyIndex lastRun.method 0
      let taskInputs : List LinkS :=
        [⟨"Input structure", SectionRef.systemRef istr⟩,
         ⟨"Input photon parameters", SectionRef.methodRef photonMeth⟩]
      let outCalc ← pyLast lastRun.calculation
      let spec0 ← pyIndex outCalc.spectra 0
      let outLink : LinkS :=
        ⟨"Output polarization " ++ pyNatStr (idx + 1), SectionRef.calcRef outCalc⟩
      let task : TaskRef := { task := w, inputs := taskInputs, outputs := [outLink] }
      let (ts, sps, outs) ← photonTasks istr imeth rest (idx + 1)
      Except.ok (task :: ts, spec0 :: sps, outLink :: outs)

/-- `OceanParser.parse_photon_workflow` (lines 234-277): creates the
aggregate run (copying program/system from the first child when both are
present, empty placeholders when there is no child at all), recomputes the
method from the configuration, and assembles the `PhotonPolarization`
workflow. -/
def parse_photon_workflow (data : JVal) (photon_archive : List Archive) :
    Except PyErr (RunS × PhotonPolW × List LogMsg) := do
  let (run0, lg) ← (do
    match photon_archive with
    | first :: _ => do
      let hrun ← pyLast first.run
      if hrun.program.isEmpty = false ∧ hrun.system.isEmpty = false then
        Except.ok (({ program := hrun.program, system := hrun.system } : RunS),
          ([] : List LogMsg))
      else
        Except.ok (({} : RunS), ([] : List LogMsg))
    | [] =>
      Except.ok (({ program := [{}], system := [{}] } : RunS),
        [LogMsg.logWarning ("Cannot resolve program and system from the first photon " ++
          "archive. Generating empty sections.")]) : Except PyErr (RunS × List LogMsg))
  let meth ← parse_method data run0
  let run1 : RunS := { run0 with method := run0.method ++ [meth] }
  let n_pol := photon_archive.length
  let input_structure ← pyLast run1.system
  let input_method ← pyLast run1.method
  let winputs : List LinkS :=
    [⟨"Input structure", SectionRef.systemRef input_structure⟩,
     ⟨"Input BSE methodology", SectionRef.methodRef input_method⟩]
  let (tasks, spectra, outs) ← photonTasks input_structure input_method photon_archive 0
  Except.ok (run1,
    { method := some input_method,
      results := { n_polarizations := some n_pol, spectrum_polarization := spectra },
      inputs := winputs, outputs := outs, tasks := tasks }, lg)

/-- `OceanParser.get_mainfile_keys` (lines 279-288): the child keys are the
`absspct*` files of the directory, sorted lexically (Python `list.sort` on
strings). -/
def get_mainfile_keys (env : Env) : List String :=
  pySorted (env.listing.filter (fun f => pyStartsWith f "absspct"))

/-- The child keys the host platform creates child archives for: one per
key returned by `get_mainfile_keys`, in the returned order (the host
platform is outside this repository; this is its documented contract, and
`parse` then iterates `self._child_archives` in that insertion order). -/
def childKeys (env : Env) : List String :=
  get_mainfile_keys env

/-- The observable outcome of one invocation of `OceanParser.parse`. -/
structure ParseResult where
  children : List (String × Archive) := []
  topRun : List RunS := []
  workflow2 : Option PhotonPolW := none
  log : List LogMsg := []

/-- `OceanParser.parse` (lines 290-312): load the main JSON (a failure is
logged and swallowed, producing nothing), build one child entry per child
key, then aggregate everything into the photon-polarization workflow on
the mainfile archive. -/
def oceanRun (env : Env) : Except PyErr ParseResult := do
  match env.mainJson with
  | none =>
    Except.ok { log := [LogMsg.logError "Error opening json output file."] }
  | some data => do
    let built ← mapME (fun k => do
      let r ← parse_spectra_entries env data k
      Except.ok (k, r.1, r.2)) (childKeys env)
    let photon_archive := built.map (fun t => t.2.1)
    let childLogs := (built.map (fun t => t.2.2)).flatten
    let (wrun, wf, wlog) ← parse_photon_workflow data photon_archive
    Except.ok
      { children := built.map (fun t => (t.1, t.2.1)),
        topRun := [wrun], workflow2 := some wf, log := childLogs ++ wlog }

/-! ## Observables, task shapes, and concrete fixtures -/

/-- Whether the child entry for key `k` builds completely: no exception,
and the single-point workflow attached at the end of
`parse_spectra_entries`. -/
def childBuilt (env : Env) (data : JVal) (k : String) : Bool :=
  match parse_spectra_entries env data k with
  | Except.ok (a, _) => a.workflow2.isSome
  | Except.error _ => false

/-- The archive built for key `k` (junk when the build raised). -/
def childArchive (env : Env) (data : JVal) (k : String) : Archive :=
  match parse_spectra_entries env data k with
  | Except.ok (a, _) => a
  | Except.error _ => {}

/-- The log of the build for key `k` (junk when the build raised). -/
def childLog (env : Env) (data : JVal) (k : String) : List LogMsg :=
  match parse_spectra_entries env data k with
  | Except.ok (_, lg) => lg
  | Except.error _ => []

/-- The calculation section of the child built for key `k`. -/
def childCalc (env : Env) (data : JVal) (k : String) : CalculationS :=
  (((childArchive env data k).run.getD 0 {}).calculation).getD 0 {}

/-- The photon method section (`run.method[0]`) of the child built for
key `k`. -/
def childPhotonMethod (env : Env) (data : JVal) (k : String) : MethodS :=
  (((childArchive env data k).run.getD 0 {}).method).getD 0 {}

/-- A complete, well-formed main JSON configuration (solver `haydock`)
with the given edge list. -/
def cfgMk (edges : List JVal) : JVal := JVal.obj [
  ("version", JVal.obj [(".", JVal.str "3.0"), ("hash", JVal.str "abc")]),
  ("dft", JVal.obj [("program", JVal.str "qe")]),
  ("structure", JVal.obj [("epsilon", JVal.num 1)]),
  ("bse", JVal.obj [
    ("core", JVal.obj [("strength", JVal.int 0), ("solver", JVal.str "haydock"),
      ("screen_radius", JVal.num 4), ("broaden", JVal.num 1),
      ("haydock", JVal.obj [("converge", JVal.obj []), ("niter", JVal.int 100)])]),
    ("kmesh", JVal.arr [JVal.int 2]), ("nbands", JVal.int 10),
    ("xmesh", JVal.arr [JVal.int 4])]),
  ("screen", JVal.obj [("mode", JVal.str "grid"), ("nbands", JVal.int 5),
    ("kmesh", JVal.arr [JVal.int 1]), ("core_offset", JVal.obj []),
    ("final", JVal.obj []), ("grid", JVal.obj []),
    ("model", JVal.obj [("flavor", JVal.str "slater")])]),
  ("calc", JVal.obj [("mode", JVal.str "xas"), ("edges", JVal.arr edges)])]

/-- The well-formed configuration with the single edge `0 1 0`. -/
def cfgOK : JVal := cfgMk [JVal.str "0 1 0"]

/-- A snapshot with one spectra file and no photon or lanczos files. -/
def envNoPhoton : Env :=
  { listing := ["absspct_0001", "o"],
    mainJson := some cfgOK,
    spectraFile := fun f => if f = "absspct_0001" then some [[1, 0, 5], [2, 0, 7]] else none,
    photonFile := fun _ => {},
    lanczosFile := fun _ => none }

/-- A snapshot whose photon file has operator quad but a single vector. -/
def envQuadOneVec : Env :=
  { listing := ["photon1"], mainJson := none,
    spectraFile := fun _ => none,
    photonFile := fun _ =>
      { operator := some "quad", vectors := some [[1, 0, 0]], photon_energy := some 500 },
    lanczosFile := fun _ => none }

/-- A snapshot whose photon file has operator dipole and a single vector. -/
def envDipole : Env :=
  { listing := ["photon1"], mainJson := none,
    spectraFile := fun _ => none,
    photonFile := fun _ =>
      { operator := some "dipole", vectors := some [[1, 0, 0]], photon_energy := some 528 },
    lanczosFile := fun _ => none }

/-- The spectra section of the child built for key `k`. -/
def childSpectra (env : Env) (data : JVal) (k : String) : SpectraS :=
  (childCalc env data k).spectra.getD 0 {}

/-- The output link the workflow loop creates for the `i`-th child (key
`k`). -/
def outLinkFor (env : Env) (data : JVal) (i : Nat) (k : String) : LinkS :=
  ⟨"Output polarization " ++ pyNatStr (i + 1),
   SectionRef.calcRef (childCalc env data k)⟩

/-- The task entry the workflow loop creates for the `i`-th child (key
`k`), given the shared input structure. -/
def taskFor (env : Env) (data : JVal) (istr : SystemS) (i : Nat) (k : String) : TaskRef :=
  { task := ChildW.singlePoint,
    inputs := [⟨"Input structure", SectionRef.systemRef istr⟩,
               ⟨"Input photon parameters",
                SectionRef.methodRef (childPhotonMethod env data k)⟩],
    outputs := [outLinkFor env data i k] }

/-- A loadable configuration with no `structure` entry at all. -/
def cfgNoStruct : JVal := JVal.obj [
  ("version", JVal.obj [(".", JVal.str "3.0"), ("hash", JVal.str "abc")]),
  ("dft", JVal.obj [("program", JVal.str "qe")]),
  ("bse", JVal.obj [
    ("core", JVal.obj [("strength", JVal.int 0), ("solver", JVal.str "haydock"),
      ("screen_radius", JVal.num 4), ("broaden", JVal.num 1)]),
    ("kmesh", JVal.arr [JVal.int 2]), ("nbands", JVal.int 10),
    ("xmesh", JVal.arr [JVal.int 4])]),
  ("screen", JVal.obj [("mode", JVal.str "grid"), ("nbands", JVal.int 5),
    ("kmesh", JVal.arr [JVal.int 1]), ("core_offset", JVal.obj []),
    ("final", JVal.obj []), ("grid", JVal.obj []),
    ("model", JVal.obj [("flavor", JVal.str "slater")])]),
  ("calc", JVal.obj [("mode", JVal.str "xas"), ("edges", JVal.arr [JVal.str "0 1 0"])])]

/-- A snapshot with one discoverable spectra file and a loadable main JSON
that lacks the `structure` entry. -/
def envNoStruct : Env :=
  { listing := ["absspct_01"],
    mainJson := some cfgNoStruct,
    spectraFile := fun _ => some [[1, 0, 5]],
    photonFile := fun _ => {},
    lanczosFile := fun _ => none }

/-- The core dictionary of `coreHoleSection`'s witness configuration:
strength 0, solver haydock, no broadening. -/
def c4coreD : JVal :=
  JVal.obj [("strength", JVal.int 0), ("solver", JVal.str "haydock")]

/-- A two-children snapshot whose configuration's first edge pair is the
unmapped `[2, 0]`. -/
def envBadEdge : Env :=
  { listing := ["absspct_01", "absspct_02"],
    mainJson := some (cfgMk [JVal.str "0 2 0"]),
    spectraFile := fun f => if pyStartsWith f "absspct" then some [[1, 0, 5]] else none,
    photonFile := fun _ => {},
    lanczosFile := fun _ => none }

/-- A snapshot with a loadable configuration and no `absspct` files. -/
def envNoSpectra : Env :=
  { listing := ["o", "photon1"],
    mainJson := some cfgOK,
    spectraFile := fun _ => none,
    photonFile := fun _ => {},
    lanczosFile := fun _ => none }

/-- A snapshot where two spectra keys share their final character. -/
def envShared : Env :=
  { listing := ["photon1", "abslanc_01", "abslanc_11", "absspct_01", "absspct_11"],
    mainJson := none, spectraFile := fun _ => none,
    photonFile := fun _ =>
      { operator := some "dipole", vectors := some [[0, 0, 1]], photon_energy := some 530 },
    lanczosFile := fun _ => none }

/-- A concrete lanczos record list: dimension field 1, scaling factor 10,
then three further records. -/
def c3data : List (List Val) := [[1, 10], [5, 6], [7, 8], [9, 9]]

/-- The eigenvalue rows recorded by a lanczos parse, when it succeeds. -/
def lancEig (r : Except PyErr LanczosResS) : Option (List (List Val)) :=
  match r with
  | Except.ok l => l.x_ocean_eigenvalues
  | Except.error _ => none

/-- The number of tridiagonal rows recorded by a lanczos parse. -/
def lancMatrixLen (r : Except PyErr LanczosResS) : Option Nat :=
  match r with
  | Except.ok l => l.x_ocean_tridiagonal_matrix.map List.length
  | Except.error _ => none

/-! ## Helper lemmas -/

/-- Bind in `Except` yields `ok` exactly when both stages do. -/
theorem except_bind_ok {α β : Type} {e : Except PyErr α} {f : α → Except PyErr β} {b : β} :
    (e >>= f) = Except.ok b ↔ ∃ a, e = Except.ok a ∧ f a = Except.ok b := by
  cases e with
  | ok a => simp [Bind.bind, Except.bind]
  | error err => simp [Bind.bind, Except.bind]

/-- `mapME` succeeds pointwise. -/
theorem mapME_ok_of {α β : Type} {f : α → Except PyErr β} {g : α → β} :
    ∀ (l : List α), (∀ a ∈ l, f a = Except.ok (g a)) → mapME f l = Except.ok (l.map g)
  | [], _ => by simp [mapME]
  | a :: as, h => by
    have ha := h a (by simp)
    have has := mapME_ok_of as (fun x hx => h x (by simp [hx]))
    simp [mapME, ha, has, Bind.bind, Except.bind]

/-- `pyIndex` at a natural index in range. -/
theorem pyIndex_ofNat {α : Type} (l : List α) (i : Nat) (d : α) (h : i < l.length) :
    pyIndex l (i : Int) = Except.ok (l.getD i d) := by
  unfold pyIndex
  have h0 : ¬ ((i : Int) < 0) := by omega
  simp only [h0, if_false]
  have h1 : (0 : Int) ≤ (i : Int) ∧ ((i : Int)).toNat < l.length := by
    constructor
    · omega
    · simpa using h
  rw [dif_pos h1]
  congr 1
  rw [List.getD_eq_getElem l d h]
  simp [List.get_eq_getElem]

/-- Membership in `intRange`. -/
theorem intRange_mem {lo hi i : Int} (h : i ∈ intRange lo hi) : lo ≤ i ∧ i < hi := by
  unfold intRange at h
  simp only [List.mem_map, List.mem_range] at h
  obtain ⟨k, hk, rfl⟩ := h
  have hk2 : (k : Int) < ((hi - lo).toNat : Int) := by exact_mod_cast hk
  constructor
  · omega
  · omega

/-- Length of `intRange`. -/
theorem intRange_length (lo hi : Int) : (intRange lo hi).length = (hi - lo).toNat := by
  unfold intRange
  rw [List.length_map, List.length_range]

/-! ## C7: spectra columns -/

/-- C7: for every spectra table whose rows all have at least three columns,
parsing yields excitation energies equal to column 0 and intensities equal
to column 2, in original row order, with the recorded number of energies
equal to the row count; and any other table agreeing with it on row count
and on columns 0 and 2 parses to the identical spectra section, so the
remaining columns do not affect the result. -/
theorem C7_spectra_columns (t : List (List Val)) (mode : String)
    (h3 : ∀ r ∈ t, 3 ≤ r.length) :
    spectraSection t mode = Except.ok
      { type := some (pyToUpper mode), n_energies := some t.length,
        excitation_energies := some (t.map (fun r => r.getD 0 0)),
        intensities := some (t.map (fun r => r.getD 2 0)) } ∧
    (∀ t' : List (List Val), (∀ r ∈ t', 3 ≤ r.length) →
      t'.length = t.length →
      t'.map (fun r => r.getD 0 0) = t.map (fun r => r.getD 0 0) →
      t'.map (fun r => r.getD 2 0) = t.map (fun r => r.getD 2 0) →
      spectraSection t' mode = spectraSection t mode) := by
  have main : ∀ (u : List (List Val)), (∀ r ∈ u, 3 ≤ r.length) →
      spectraSection u mode = Except.ok
        { type := some (pyToUpper mode), n_energies := some u.length,
          excitation_energies := some (u.map (fun r => r.getD 0 0)),
          intensities := some (u.map (fun r => r.getD 2 0)) } := by
    intro u hu
    have he : mapME (fun row => pyIndex row 0) u =
        Except.ok (u.map (fun r => r.getD 0 0)) := by
      apply mapME_ok_of
      intro r hr
      have h0 := pyIndex_ofNat r 0 0 (by have := hu r hr; omega)
      simpa using h0
    have hi : mapME (fun row => pyIndex row 2) u =
        Except.ok (u.map (fun r => r.getD 2 0)) := by
      apply mapME_ok_of
      intro r hr
      have h2 := pyIndex_ofNat r 2 0 (by have := hu r hr; omega)
      simpa using h2
    unfold spectraSection
    rw [he, hi]
    simp [Bind.bind, Except.bind]
  refine ⟨main t h3, ?_⟩
  intro t' h3' hlen h0 h2
  rw [main t h3, main t' h3', hlen, h0, h2]

/-! ## Observables of a child build -/

/-- A successful `parse_scc` always records the references and exactly one
spectra section. -/
theorem parse_scc_spectra {env : Env} {data : JVal} {path : String} {run : RunS}
    {c : CalculationS} (h : parse_scc env data path run = Except.ok c) :
    c.system_ref = some () ∧ c.method_ref = some () ∧ ∃ spec, c.spectra = [spec] := by
  unfold parse_scc at h
  simp only [Bind.bind, Except.bind] at h
  cases h1 : pyLast run.system <;> simp only [h1] at h <;>
    try exact Except.noConfusion h
  case ok sys1 =>
  cases h2 : pyLast run.method <;> simp only [h2] at h <;>
    try exact Except.noConfusion h
  case ok meth1 =>
  cases h3 : orTypeError (env.spectraFile path) <;> simp only [h3] at h <;>
    try exact Except.noConfusion h
  case ok t =>
  cases h4 : data.getI "calc" <;> simp only [h4] at h <;>
    try exact Except.noConfusion h
  case ok calcD =>
  cases h5 : calcD.getM "mode" <;> simp only [h5] at h <;>
    try exact Except.noConfusion h
  case ok mo =>
  cases h6 : asPyStr mo <;> simp only [h6] at h <;>
    try exact Except.noConfusion h
  case ok ms =>
  cases h7 : spectraSection t ms <;> simp only [h7] at h <;>
    try exact Except.noConfusion h
  case ok spec =>
  cases h8 : lanczosCandidates env path with
  | nil =>
    simp only [h8, Except.ok.injEq] at h
    subst h
    exact ⟨rfl, rfl, spec, rfl⟩
  | cons f fs =>
    simp only [h8] at h
    cases h9 : orTypeError (env.lanczosFile f) <;> simp only [h9] at h <;>
      try exact Except.noConfusion h
    case ok dln =>
    cases h10 : lanczosSection dln <;> simp only [h10] at h <;>
      try exact Except.noConfusion h
    case ok lanc =>
    simp only [Except.ok.injEq] at h
    subst h
    exact ⟨rfl, rfl, spec, rfl⟩

/-- Shape of a fully built child entry: a successful
`parse_spectra_entries` whose workflow was attached produces exactly one
run holding one program, one system, the photon method followed by the
computed method, and one calculation with a single spectra section. -/
theorem parse_spectra_entries_shape {env : Env} {data : JVal} {path : String}
    {a : Archive} {lg : List LogMsg}
    (h : parse_spectra_entries env data path = Except.ok (a, lg))
    (hw : a.workflow2 = some ChildW.singlePoint) :
    ∃ prog sys mphoton meth calcSec,
      parse_photon_polarization env path = Except.ok mphoton ∧
      a = { run := [{ program := [prog], system := [sys],
                      method := [mphoton, meth], calculation := [calcSec] }],
            workflow2 := some ChildW.singlePoint } ∧
      lg = [] ∧
      (∃ spec, calcSec.spectra = [spec]) := by
  unfold parse_spectra_entries at h
  simp only [Bind.bind, Except.bind, Pure.pure, Except.pure] at h
  cases h1 : data.getI "version" <;> simp only [h1] at h <;>
    try exact Except.noConfusion h
  case ok versionD =>
  cases h2 : versionD.getM "." <;> simp only [h2] at h <;>
    try exact Except.noConfusion h
  case ok vdot =>
  cases h4 : versionD.getM "hash" <;> simp only [h4] at h <;>
    try exact Except.noConfusion h
  case ok vhash =>
  cases h5 : data.getI "dft" <;> simp only [h5] at h <;>
    try exact Except.noConfusion h
  case ok dftD =>
  cases h6 : dftD.getM "program" <;> simp only [h6] at h <;>
    try exact Except.noConfusion h
  case ok dprog =>
  cases h7 : data.getM "structure" <;> simp only [h7] at h <;>
    try exact Except.noConfusion h
  case ok structO =>
  by_cases h8 : pyTruthyO structO = false
  · rw [if_pos h8] at h
    simp only [Except.ok.injEq, Prod.mk.injEq] at h
    rw [← h.1] at hw
    simp at hw
  · rw [if_neg h8] at h
    cases h9 : parse_system (structO.getD JVal.null) <;> simp only [h9] at h <;>
      try exact Except.noConfusion h
    next sys =>
    cases h10 : parse_photon_polarization env path <;> simp only [h10] at h <;>
      try exact Except.noConfusion h
    next mphoton =>
    cases h11 : parse_method data
        { program := [mkProgram vdot vhash dprog], system := [sys],
          method := [mphoton], calculation := [] } <;>
      simp only [h11] at h <;> try exact Except.noConfusion h
    next meth =>
    cases h12 : parse_scc env data path
        { program := [mkProgram vdot vhash dprog], system := [sys],
          method := [mphoton] ++ [meth], calculation := [] } <;>
      simp only [h12] at h <;> try exact Except.noConfusion h
    next calcSec =>
    simp only [Except.ok.injEq, Prod.mk.injEq] at h
    obtain ⟨spec, hspec⟩ := (parse_scc_spectra h12).2.2
    refine ⟨mkProgram vdot vhash dprog, sys, mphoton, meth, calcSec, rfl, ?_,
      h.2.symm, spec, hspec⟩
    exact h.1.symm

/-- A child that is built has exactly the archive and log recorded by the
observables, and its workflow attached. -/
theorem childBuilt_ok {env : Env} {data : JVal} {k : String}
    (h : childBuilt env data k = true) :
    parse_spectra_entries env data k =
      Except.ok (childArchive env data k, childLog env data k) ∧
    (childArchive env data k).workflow2 = some ChildW.singlePoint := by
  unfold childBuilt at h
  cases hp : parse_spectra_entries env data k <;> rw [hp] at h
  case error e => simp at h
  case ok r =>
    obtain ⟨a, lg⟩ := r
    have e1 : childArchive env data k = a := by unfold childArchive; rw [hp]
    have e2 : childLog env data k = lg := by unfold childLog; rw [hp]
    have h' : a.workflow2.isSome = true := h
    have hw2 : a.workflow2 = some ChildW.singlePoint := by
      cases hw : a.workflow2 with
      | none => rw [hw] at h'; simp at h'
      | some w => cases w; rfl
    rw [e1, e2]
    exact ⟨rfl, hw2⟩

/-! ## Concrete test fixtures -/

/-! ## C8: missing photon file -/

/-- C8 counterexample: with no discoverable photon file the child run's
first method section is not left without a photon descriptor: it contains
an (empty) `Photon` subsection, because `parse_photon_polarization`
creates `Method` and `Photon` before looking for the file. -/
theorem C8_photon_counterexample :
    ∃ a lg, parse_spectra_entries envNoPhoton cfgOK "absspct_0001" = Except.ok (a, lg) ∧
      ((a.run.getD 0 {}).method.getD 0 {}).photon ≠ [] ∧
      ((a.run.getD 0 {}).method.getD 0 {}).photon = [{}] := by
  refine ⟨_, _, rfl, ?_, ?_⟩ <;> decide

/-- C8 amended: for every polarization key with no discoverable photon
file, photon population is skipped silently (no exception) but the method
section created for it keeps an empty photon subsection (all fields
unset), and the rest of the child run (program, system, second method,
calculation) is still built. -/
theorem C8_photon_skip_amended (env : Env) (data : JVal) (path : String)
    (hc : photonCandidates env path = [])
    (hb : childBuilt env data path = true) :
    parse_photon_polarization env path = Except.ok { photon := [{}] } ∧
    ∃ a lg, parse_spectra_entries env data path = Except.ok (a, lg) ∧
      a.workflow2 = some ChildW.singlePoint ∧
      ∃ prog sys meth calcSec,
        a.run = [{ program := [prog], system := [sys],
                   method := [{ photon := [{}] }, meth], calculation := [calcSec] }] := by
  have hpp : parse_photon_polarization env path = Except.ok { photon := [{}] } := by
    unfold parse_photon_polarization
    rw [hc]
  obtain ⟨hpe, hw⟩ := childBuilt_ok hb
  obtain ⟨prog, sys, mphoton, meth, calcSec, hph, ha, hlg, hspec⟩ :=
    parse_spectra_entries_shape hpe hw
  have hm : mphoton = { photon := [{}] } := by
    have heq := hph.symm.trans hpp
    injection heq
  refine ⟨hpp, childArchive env data path, childLog env data path, hpe, hw,
    prog, sys, meth, calcSec, ?_⟩
  rw [ha, hm]

/-- C8 witness: the amended theorem applied to the concrete snapshot with
no photon files. -/
theorem C8_photon_skip_witness :
    parse_photon_polarization envNoPhoton "absspct_0001" = Except.ok { photon := [{}] } ∧
    ∃ a lg, parse_spectra_entries envNoPhoton cfgOK "absspct_0001" = Except.ok (a, lg) ∧
      a.workflow2 = some ChildW.singlePoint ∧
      ∃ prog sys meth calcSec,
        a.run = [{ program := [prog], system := [sys],
                   method := [{ photon := [{}] }, meth], calculation := [calcSec] }] :=
  C8_photon_skip_amended envNoPhoton cfgOK "absspct_0001" rfl (by decide)

/-! ## C5: dipole and quad photon descriptors -/

/-- C5 counterexample: for operator quad with only one vector present the
parse raises an `IndexError` (from `vectors[1]`) instead of completing
with the momentum-transfer field left unset. -/
theorem C5_photon_counterexample :
    parse_photon_polarization envQuadOneVec "absspct_0001" =
      Except.error PyErr.indexError := rfl

/-- C5 amended: a dipole photon descriptor never requires a second vector
(one vector and an energy suffice, and momentum transfer stays unset);
a quad descriptor with only one vector raises an `IndexError` rather
than completing. -/
theorem C5_photon_amended (env : Env) (path f : String) (fs : List String)
    (hc : photonCandidates env path = f :: fs) :
    (∀ (v0 : List Val) (vs : List (List Val)) (e : Val),
      (env.photonFile f).operator = some "dipole" →
      (env.photonFile f).vectors = some (v0 :: vs) →
      (env.photonFile f).photon_energy = some e →
      parse_photon_polarization env path = Except.ok
        { photon := [{ multipole_type := some "dipole", polarization := some v0,
                       momentum_transfer := none, energy := some e }] }) ∧
    (∀ (v0 : List Val),
      (env.photonFile f).operator = some "quad" →
      (env.photonFile f).vectors = some [v0] →
      parse_photon_polarization env path = Except.error PyErr.indexError) := by
  constructor
  · intro v0 vs e hop hvec hen
    unfold parse_photon_polarization
    rw [hc]
    have hv0 : pyIndex (v0 :: vs) 0 = Except.ok v0 := by
      have h0 := pyIndex_ofNat (v0 :: vs) 0 v0 (by simp)
      simpa using h0
    simp only [hop, hvec, hen, orTypeError, Bind.bind, Except.bind, hv0]
    rw [if_neg (by decide :
      ¬ ((some "dipole" : Option String) = some "quad" ∨
         (some "dipole" : Option String) = some "NRIXS" ∨
         (some "dipole" : Option String) = some "qRaman"))]
  · intro v0 hop hvec
    unfold parse_photon_polarization
    rw [hc]
    have hv0 : pyIndex ([v0] : List (List Val)) 0 = Except.ok v0 := by
      have h0 := pyIndex_ofNat ([v0] : List (List Val)) 0 v0 (by simp)
      simpa using h0
    simp only [hop, hvec, orTypeError, Bind.bind, Except.bind, hv0]
    simp only [true_or, if_true]
    rfl

/-- C5 amended witness: the amended theorem applied to the two concrete
photon snapshots. -/
theorem C5_photon_amended_witness :
    parse_photon_polarization envDipole "absspct_0001" = Except.ok
      { photon := [{ multipole_type := some "dipole", polarization := some [1, 0, 0],
                     momentum_transfer := none, energy := some 528 }] } ∧
    parse_photon_polarization envQuadOneVec "absspct_0001" =
      Except.error PyErr.indexError := by
  have h1 := C5_photon_amended envDipole "absspct_0001" "photon1" [] rfl
  have h2 := C5_photon_amended envQuadOneVec "absspct_0001" "photon1" [] rfl
  exact ⟨h1.1 [1, 0, 0] [] 528 rfl rfl rfl, h2.2 [1, 0, 0] rfl rfl⟩

/-! ## C1: one task per child, in sorted filename order -/

/-- `pyLast` on a one-element list. -/
theorem pyLast_one {α : Type} (x : α) : pyLast [x] = Except.ok x := rfl

/-- `pyIndex 0` on a two-element list. -/
theorem pyIndex_two0 {α : Type} (x y : α) : pyIndex [x, y] 0 = Except.ok x := rfl

/-- `pyIndex 0` on a one-element list. -/
theorem pyIndex_one0 {α : Type} (x : α) : pyIndex [x] 0 = Except.ok x := rfl

/-- The task loop over fully built children produces exactly one task per
child, in list order, with the enumerated output links and the children's
spectra. -/
theorem photonTasks_built (env : Env) (data : JVal) (istr : SystemS) (imeth : MethodS) :
    ∀ (ks : List String) (idx : Nat),
      (∀ k ∈ ks, childBuilt env data k = true) →
      photonTasks istr imeth (ks.map (childArchive env data)) idx =
        Except.ok
          ((ks.enumFrom idx).map (fun p => taskFor env data istr p.1 p.2),
           ks.map (childSpectra env data),
           (ks.enumFrom idx).map (fun p => outLinkFor env data p.1 p.2))
  | [], idx, _ => rfl
  | k :: rest, idx, h => by
    have hk := h k (by simp)
    obtain ⟨hpe, hw⟩ := childBuilt_ok hk
    obtain ⟨prog, sys, mphoton, meth, calcSec, hph, ha, hlg, ⟨spec, hspec⟩⟩ :=
      parse_spectra_entries_shape hpe hw
    have hcm : childPhotonMethod env data k = mphoton := by
      unfold childPhotonMethod
      rw [ha]
      rfl
    have hcc : childCalc env data k = calcSec := by
      unfold childCalc
      rw [ha]
      rfl
    have hcs : childSpectra env data k = spec := by
      unfold childSpectra
      rw [hcc, hspec]
      rfl
    have ih := photonTasks_built env data istr imeth rest (idx + 1)
      (fun x hx => h x (by simp [hx]))
    simp only [List.map_cons, photonTasks, ha, pyLast_one, pyIndex_two0,
      Bind.bind, Except.bind, hspec, pyIndex_one0, ih]
    simp only [List.enumFrom_cons, List.map_cons, taskFor, outLinkFor, hcm, hcc, hcs]

/-- The child-building loop of `parse` over fully built children. -/
theorem buildLoop_ok (env : Env) (data : JVal)
    (hchildren : ∀ k ∈ childKeys env, childBuilt env data k = true) :
    mapME (fun k => do
      let r ← parse_spectra_entries env data k
      Except.ok (k, r.1, r.2)) (childKeys env) =
    Except.ok ((childKeys env).map (fun k =>
      (k, childArchive env data k, childLog env data k))) := by
  apply mapME_ok_of
  intro k hk
  obtain ⟨hpe, _⟩ := childBuilt_ok (hchildren k hk)
  simp only [hpe, Bind.bind, Except.bind]

/-- `methodStartRef` of a run without method sections. -/
theorem methodStartRef_mk_nil (p : List ProgramS) (s : List SystemS)
    (c : List CalculationS) :
    methodStartRef { program := p, system := s, method := [], calculation := c } =
      none := rfl

/-- The archives extracted from the build-loop results. -/
theorem map_second_first (env : Env) (data : JVal) (l : List String) :
    List.map (fun t => t.2.1)
      (l.map (fun k => (k, childArchive env data k, childLog env data k))) =
    l.map (childArchive env data) := by
  induction l with
  | nil => rfl
  | cons x xs ih => simp [ih]

/-- C1 amended: for every snapshot with a loadable configuration on which
every discovered child run builds completely (and whose configuration the
method mapper accepts), the aggregation produces exactly one task per
discovered spectra file, in the lexically sorted order of the filenames:
the `i`-th task's output links reference the calculation of the child
built for the `i`-th sorted key. -/
theorem C1_task_aggregation (env : Env) (data : JVal) (m0 : MethodS)
    (hjson : env.mainJson = some data)
    (hchildren : ∀ k ∈ childKeys env, childBuilt env data k = true)
    (hm : parse_method_core data = Except.ok m0) :
    ∃ res, oceanRun env = Except.ok res ∧
      ∃ wf, res.workflow2 = some wf ∧
        wf.tasks.length = (childKeys env).length ∧
        wf.results.n_polarizations = some (childKeys env).length ∧
        wf.results.spectrum_polarization = (childKeys env).map (childSpectra env data) ∧
        wf.tasks.map (fun t => t.outputs) =
          (childKeys env).enum.map (fun p => [outLinkFor env data p.1 p.2]) := by
  unfold oceanRun
  rw [hjson]
  simp only [Bind.bind, Except.bind]
  have hbuild := buildLoop_ok env data hchildren
  simp only [Bind.bind, Except.bind] at hbuild
  cases hks : childKeys env with
  | nil =>
    rw [hks] at hbuild
    simp only [hbuild, List.map_nil]
    unfold parse_photon_workflow parse_method
    simp only [Bind.bind, Except.bind, hm, mapME]
    exact ⟨_, rfl, _, rfl, rfl, rfl, rfl, rfl⟩
  | cons k rest =>
    rw [hks] at hbuild
    have hchildren' : ∀ x ∈ k :: rest, childBuilt env data x = true := by
      intro x hx
      exact hchildren x (hks ▸ hx)
    have hk := hchildren' k (by simp)
    obtain ⟨hpe, hw⟩ := childBuilt_ok hk
    obtain ⟨prog, sys, mphoton, meth, calcSec, hph, ha, hlg, ⟨spec, hspec⟩⟩ :=
      parse_spectra_entries_shape hpe hw
    have htasks := photonTasks_built env data sys
      { m0 with starting_method_ref := none } (k :: rest) 0 hchildren'
    rw [List.map_cons, ha] at htasks
    simp only [hbuild, map_second_first, List.map_cons]
    unfold parse_photon_workflow parse_method
    simp only [Bind.bind, Except.bind, ha, hm, pyLast_one]
    rw [if_pos (show ([prog] : List ProgramS).isEmpty = false ∧
      ([sys] : List SystemS).isEmpty = false from ⟨rfl, rfl⟩)]
    simp only [methodStartRef_mk_nil, List.nil_append, pyLast_one, htasks]
    refine ⟨_, rfl, _, rfl, ?_, ?_, rfl, ?_⟩
    · simp [List.enumFrom_length]
    · simp
    · simp only [List.map_map, List.enum, Function.comp_def, taskFor]

/-- C1 counterexample: a snapshot with one discoverable spectra file and a
loadable main JSON configuration on which the aggregation does not produce
one task entry — the run aborts with an uncaught `KeyError` (the child
build is skipped for the missing structure, and the workflow-level method
mapping then subscripts the absent `structure` entry), so no workflow and
no tasks are produced at all. -/
theorem C1_task_counterexample :
    oceanRun envNoStruct = Except.error (PyErr.keyError "structure") := rfl

/-- C1 witness: the amended theorem applied to the concrete snapshot with
one spectra file; the single task's outputs reference the only child's
calculation. -/
theorem C1_task_aggregation_witness :
    ∃ res, oceanRun envNoPhoton = Except.ok res ∧
      ∃ wf, res.workflow2 = some wf ∧
        wf.tasks.length = 1 ∧
        wf.results.n_polarizations = some 1 ∧
        wf.tasks.map (fun t => t.outputs) =
          [[outLinkFor envNoPhoton cfgOK 0 "absspct_0001"]] := by
  obtain ⟨res, hres, wf, hwf, hlen, hn, hsp, hout⟩ :=
    C1_task_aggregation envNoPhoton cfgOK _ rfl (by decide) rfl
  have hk : childKeys envNoPhoton = ["absspct_0001"] := rfl
  rw [hk] at hlen hn hout
  refine ⟨res, hres, wf, hwf, hlen, hn, ?_⟩
  rw [hout]
  rfl

/-! ## C2: solver-specific parameter blocks -/

/-- Every successful `parse_method_core` leaves both solver blocks empty:
the branch guards compare `sec_bse.type`, which is never assigned. -/
theorem parse_method_core_blocks {data : JVal} {m : MethodS}
    (h : parse_method_core data = Except.ok m) :
    ∃ o, m.ocean_bse = [o] ∧ o.haydock = [] ∧ o.gmres = [] := by
  unfold parse_method_core at h
  simp only [Bind.bind, Except.bind] at h
  cases h1 : data.getI "bse" <;> simp only [h1] at h <;> try exact Except.noConfusion h
  case ok bseD =>
  cases h2 : bseD.getM "kmesh" <;> simp only [h2] at h <;> try exact Except.noConfusion h
  case ok kgrid =>
  cases h3 : bseD.getM "nbands" <;> simp only [h3] at h <;> try exact Except.noConfusion h
  case ok nbands =>
  cases h4 : data.getI "screen" <;> simp only [h4] at h <;> try exact Except.noConfusion h
  case ok screenD =>
  cases h5 : screenD.getM "mode" <;> simp only [h5] at h <;> try exact Except.noConfusion h
  case ok smode =>
  cases h6 : data.getI "structure" <;> simp only [h6] at h <;> try exact Except.noConfusion h
  case ok structD =>
  cases h7 : structD.getM "epsilon" <;> simp only [h7] at h <;> try exact Except.noConfusion h
  case ok eps =>
  cases h8 : screenD.getM "nbands" <;> simp only [h8] at h <;> try exact Except.noConfusion h
  case ok snbands =>
  cases h9 : screenD.getM "kmesh" <;> simp only [h9] at h <;> try exact Except.noConfusion h
  case ok skmesh =>
  cases h10 : bseD.getI "core" <;> simp only [h10] at h <;> try exact Except.noConfusion h
  case ok coreD =>
  cases h11 : coreD.getM "screen_radius" <;> simp only [h11] at h <;>
    try exact Except.noConfusion h
  case ok sradius =>
  cases h12 : bseD.getM "xmesh" <;> simp only [h12] at h <;> try exact Except.noConfusion h
  case ok xmesh =>
  simp only [bseSection_type, solverBlocksFor_none] at h
  cases h13 : mapME (screenAttr screenD) screenKeys <;> simp only [h13] at h <;>
    try exact Except.noConfusion h
  case ok sAttrs1 =>
  cases h14 : mapME (screenDictAttrs screenD) screenDicts <;> simp only [h14] at h <;>
    try exact Except.noConfusion h
  case ok sAttrs2 =>
  cases h15 : screenD.getI "model" <;> simp only [h15] at h <;>
    try exact Except.noConfusion h
  case ok modelD =>
  cases h16 : modelD.getM "flavor" <;> simp only [h16] at h <;>
    try exact Except.noConfusion h
  case ok flavor =>
  cases h17 : methodEdges data <;> simp only [h17] at h <;> try exact Except.noConfusion h
  case ok edges =>
  cases h18 : coreHoleSection coreD edges <;> simp only [h18] at h <;>
    try exact Except.noConfusion h
  case ok ch =>
  simp only [Except.ok.injEq] at h
  subst h
  exact ⟨_, rfl, rfl, rfl⟩

/-- C2: the claim is right about the intent and the code has a slip: the
two solver-specific blocks are guarded by `sec_bse.type`, which no line
of the parser ever assigns, so method parsing produces neither a haydock
nor a gmres block for any configuration — in particular not for
`solver = "haydock"`.  (The mapping error for unrecognized solver names
does occur, at the `CoreHole.solver` lookup.) -/
theorem C2_solver_blocks_dead (data : JVal) (run : RunS) (m : MethodS)
    (h : parse_method data run = Except.ok m) :
    ∃ o, m.ocean_bse = [o] ∧ o.haydock = [] ∧ o.gmres = [] := by
  unfold parse_method at h
  simp only [Bind.bind, Except.bind] at h
  cases hc : parse_method_core data <;> simp only [hc] at h <;>
    try exact Except.noConfusion h
  case ok m0 =>
  obtain ⟨o, ho, hh, hg⟩ := parse_method_core_blocks hc
  simp only [Except.ok.injEq] at h
  subst h
  exact ⟨o, ho, hh, hg⟩

/-- C2 witness: the failing input evaluated — the haydock configuration
`cfgOK` parses successfully yet carries no haydock (and no gmres) block. -/
theorem C2_solver_blocks_dead_witness :
    ∃ m, parse_method cfgOK {} = Except.ok m ∧
      ∃ o, m.ocean_bse = [o] ∧ o.haydock = [] ∧ o.gmres = [] :=
  ⟨_, rfl, C2_solver_blocks_dead cfgOK {} _ rfl⟩

/-! ## C4: edge-label mapping -/

/-- C4 counterexample: with first edge pair `[2, 0]` the whole parse
raises the mapping `KeyError` (uncaught), so no sibling child runs and no
workflow step are aggregated, contradicting the claim that the run does
not crash. -/
theorem C4_edge_counterexample :
    oceanRun envBadEdge = Except.error (PyErr.keyError "[2, 0]") := rfl

/-- C4 amended: the first edge's trailing pair `[1,0]` maps to the core
level `K` and `[2,1]` to `L23`; a pair outside the mapping raises a
`KeyError` naming the rendered pair — and, being uncaught, that error
propagates and aborts the parse of the remaining children and of the
workflow step (demonstrated by the counterexample). -/
theorem C4_edge_mapping (coreD : JVal) (edges : List (List Int)) (e0 : List Int)
    (bro : Option JVal)
    (h0 : edges.head? = some e0)
    (hs : coreD.getM "strength" = Except.ok (some (JVal.int 0)))
    (hsol : coreD.getM "solver" = Except.ok (some (JVal.str "haydock")))
    (hb : coreD.getM "broaden" = Except.ok bro) :
    (pyTakeLast2 e0 = [1, 0] →
      coreHoleSection coreD edges = Except.ok
        { mode := some "emission", solver := some "lanczos-haydock",
          edge := some "K", broadening := bro }) ∧
    (pyTakeLast2 e0 = [2, 1] →
      coreHoleSection coreD edges = Except.ok
        { mode := some "emission", solver := some "lanczos-haydock",
          edge := some "L23", broadening := bro }) ∧
    (mapLookup coreLevelMap (pyListStr (pyTakeLast2 e0)) = none →
      coreHoleSection coreD edges = Except.error
        (PyErr.keyError (pyListStr (pyTakeLast2 e0)))) := by
  have hd0 : 0 < edges.length := by
    cases edges with
    | nil => simp at h0
    | cons x xs => simp
  have hget0 : edges.getD 0 [] = e0 := by
    cases edges with
    | nil => simp at h0
    | cons x xs => simp at h0; simp [h0]
  have hidx : pyIndex edges 0 = Except.ok e0 := by
    have h' := pyIndex_ofNat edges 0 [] hd0
    rw [hget0] at h'
    exact h'
  have hmode : pyIndexJ modeBse (some (JVal.int 0)) = Except.ok "emission" := rfl
  have hsolver : dictGetI typeBseMap (some (JVal.str "haydock")) =
    Except.ok "lanczos-haydock" := rfl
  refine ⟨?_, ?_, ?_⟩
  · intro hp
    unfold coreHoleSection
    simp only [Bind.bind, Except.bind, hs, hsol, hb, hidx, hmode, hsolver, hp]
    rfl
  · intro hp
    unfold coreHoleSection
    simp only [Bind.bind, Except.bind, hs, hsol, hb, hidx, hmode, hsolver, hp]
    rfl
  · intro hp
    unfold coreHoleSection
    simp only [Bind.bind, Except.bind, hs, hsol, hb, hidx, hmode, hsolver,
      dictGetS, hp]

/-- C4 witness: the amended theorem applied to the concrete core
dictionary and the three edge shapes. -/
theorem C4_edge_mapping_witness :
    coreHoleSection c4coreD [[0, 1, 0]] = Except.ok
      { mode := some "emission", solver := some "lanczos-haydock",
        edge := some "K", broadening := none } ∧
    coreHoleSection c4coreD [[0, 2, 1]] = Except.ok
      { mode := some "emission", solver := some "lanczos-haydock",
        edge := some "L23", broadening := none } ∧
    coreHoleSection c4coreD [[0, 2, 0]] = Except.error (PyErr.keyError "[2, 0]") := by
  have h1 := C4_edge_mapping c4coreD [[0, 1, 0]] [0, 1, 0] none rfl rfl rfl rfl
  have h2 := C4_edge_mapping c4coreD [[0, 2, 1]] [0, 2, 1] none rfl rfl rfl rfl
  have h3 := C4_edge_mapping c4coreD [[0, 2, 0]] [0, 2, 0] none rfl rfl rfl rfl
  exact ⟨h1.1 rfl, h2.2.1 rfl, h3.2.2 rfl⟩

/-! ## C6: zero discoverable spectra files -/

/-- C6: when no spectra file is discoverable (empty child sequence), the
aggregation does not raise: it logs the recoverable warning, emits a
workflow run with empty placeholder program and system sections, still
populates the method from the shared configuration, and produces zero
tasks. -/
theorem C6_zero_children (env : Env) (data : JVal) (m0 : MethodS)
    (hjson : env.mainJson = some data)
    (hkeys : childKeys env = [])
    (hm : parse_method_core data = Except.ok m0) :
    ∃ res, oceanRun env = Except.ok res ∧
      res.topRun = [{ program := [{}], system := [{}],
                      method := [{ m0 with starting_method_ref := none }] }] ∧
      (∃ wf, res.workflow2 = some wf ∧ wf.tasks = [] ∧
        wf.results.n_polarizations = some 0 ∧
        wf.results.spectrum_polarization = [] ∧
        wf.method = some { m0 with starting_method_ref := none }) ∧
      res.log = [LogMsg.logWarning
        ("Cannot resolve program and system from the first photon " ++
         "archive. Generating empty sections.")] := by
  unfold oceanRun
  rw [hjson]
  rw [hkeys]
  unfold parse_photon_workflow parse_method
  simp only [Bind.bind, Except.bind, mapME, hm]
  exact ⟨_, rfl, rfl, ⟨_, rfl, rfl, rfl, rfl, rfl⟩, rfl⟩

/-- C6 witness: the theorem applied to the concrete snapshot without
spectra files. -/
theorem C6_zero_children_witness :
    ∃ res, oceanRun envNoSpectra = Except.ok res ∧
      (∃ wf, res.workflow2 = some wf ∧ wf.tasks = [] ∧
        wf.results.n_polarizations = some 0) ∧
      res.topRun ≠ [] ∧
      res.log = [LogMsg.logWarning
        ("Cannot resolve program and system from the first photon " ++
         "archive. Generating empty sections.")] := by
  obtain ⟨res, hres, htop, ⟨wf, hwf, ht, hn, _, _⟩, hlog⟩ :=
    C6_zero_children envNoSpectra cfgOK _ rfl rfl rfl
  refine ⟨res, hres, ⟨wf, hwf, ht, hn⟩, ?_, hlog⟩
  rw [htop]
  simp

/-! ## C9: first child lacking program or system -/

/-- C9: for a non-empty child sequence whose first child's last run lacks
a program or a system section, the aggregation neither copies references
nor creates placeholders (the placeholder branch runs only for an empty
sequence), so the subsequent `sec_run.system[-1]` access raises an
`IndexError`: that error branch is reachable. -/
theorem C9_missing_system (data : JVal) (a : Archive) (rest : List Archive)
    (r : RunS) (m0 : MethodS)
    (hrun : pyLast a.run = Except.ok r)
    (hmiss : r.program = [] ∨ r.system = [])
    (hm : parse_method_core data = Except.ok m0) :
    parse_photon_workflow data (a :: rest) = Except.error PyErr.indexError := by
  have hcond : ¬ (r.program.isEmpty = false ∧ r.system.isEmpty = false) := by
    rcases hmiss with h | h <;> simp [h]
  unfold parse_photon_workflow parse_method
  simp only [Bind.bind, Except.bind, hrun, hm]
  rw [if_neg hcond]
  rfl

/-- C9 witness: the theorem applied to a concrete child whose only run
has a program but no system (as built when the configuration's structure
entry is empty), with the well-formed configuration. -/
theorem C9_missing_system_witness :
    parse_photon_workflow cfgOK
      [{ run := [{ program := [{ name := some "OCEAN" }] }] }] =
      Except.error PyErr.indexError := by
  have h := C9_missing_system cfgOK
    { run := [{ program := [{ name := some "OCEAN" }] }] } []
    { program := [{ name := some "OCEAN" }] } _
    rfl (Or.inr rfl) rfl
  exact h

/-! ## C10: photon files matched on one trailing character -/

/-- C10: the photon file attached to a child is the first
directory-listing entry whose name starts with `photon` and ends with the
final one character of the spectra filename, so any two polarization keys
sharing that final character select the same candidate list (hence the
same photon file and the same parsed photon section), while the lanczos
discovery filters on the final two characters. -/
theorem C10_photon_suffix (env : Env) (p1 p2 : String)
    (h : pyTakeRight p1 1 = pyTakeRight p2 1) :
    photonCandidates env p1 = photonCandidates env p2 ∧
    parse_photon_polarization env p1 = parse_photon_polarization env p2 := by
  have hcand : photonCandidates env p1 = photonCandidates env p2 := by
    unfold photonCandidates
    rw [h]
  refine ⟨hcand, ?_⟩
  unfold parse_photon_polarization
  rw [hcand]

/-- C10 witness: two distinct keys ending in the same character share the
photon file `photon1` and its parsed photon section, while their lanczos
candidates (matched on two trailing characters) differ. -/
theorem C10_photon_suffix_witness :
    ("absspct_01" ≠ "absspct_11") ∧
    photonCandidates envShared "absspct_01" = ["photon1"] ∧
    photonCandidates envShared "absspct_11" = ["photon1"] ∧
    parse_photon_polarization envShared "absspct_01" =
      parse_photon_polarization envShared "absspct_11" ∧
    lanczosCandidates envShared "absspct_01" = ["abslanc_01"] ∧
    lanczosCandidates envShared "absspct_11" = ["abslanc_11"] := by
  have h := C10_photon_suffix envShared "absspct_01" "absspct_11" rfl
  exact ⟨by decide, rfl, rfl, h.2, rfl, rfl⟩

/-! ## C3: lanczos record consumption -/

/-- C3 counterexample: on `c3data` the first record's first field is the
integer 1, so the claim predicts exactly one consumed tridiagonal record
and eigenvalues `[[7,8],[9,9]]` (everything after that record); the code
consumes two records (`n_dimension = n + 1`) and leaves only `[[9,9]]` as
eigenvalues. -/
theorem C3_lanczos_counterexample :
    lancMatrixLen (lanczosSection c3data) = some 2 ∧
    lancMatrixLen (lanczosSection c3data) ≠ some 1 ∧
    lancEig (lanczosSection c3data) = some [[9, 9]] ∧
    lancEig (lanczosSection c3data) ≠ some [[7, 8], [9, 9]] := by
  decide

/-- C3 amended: for a lanczos record list whose first record's first field
truncates to the integer `n ≥ 0`, the parse consumes exactly `n + 1`
subsequent records as the tridiagonal matrix (recording `n + 1` as the
dimension), the first tridiagonal row's second column is 0.0 regardless of
the file contents, and exactly the records from index `n + 2` on become
the eigenvalues. -/
theorem C3_lanczos_amended (dl : List (List Val)) (r0 : List Val) (n : Nat)
    (h0 : dl.head? = some r0)
    (hn : pyTruncInt (r0.getD 0 0) = (n : Int))
    (hr0 : 2 ≤ r0.length)
    (hlen : n + 2 ≤ dl.length)
    (hrows : ∀ i, 2 ≤ i → i ≤ n + 1 → 2 ≤ (dl.getD i []).length) :
    ∃ l, lanczosSection dl = Except.ok l ∧
      l.x_ocean_n_tridiagonal_matrix = some ((n : Int) + 1) ∧
      l.x_ocean_scaling_factor = some (r0.getD 1 0) ∧
      (l.x_ocean_tridiagonal_matrix.getD []).length = n + 1 ∧
      (∃ rest, l.x_ocean_tridiagonal_matrix =
        some ((PyCell.arr (dl.getD 1 []), 0) :: rest)) ∧
      l.x_ocean_eigenvalues = some (dl.drop (n + 2)) := by
  have hd0 : 0 < dl.length := by
    cases dl with
    | nil => simp at h0
    | cons a as => simp
  have hget0 : dl.getD 0 [] = r0 := by
    cases dl with
    | nil => simp at h0
    | cons a as => simp at h0; simp [h0]
  have hp0 : pyIndex dl 0 = Except.ok r0 := by
    have h' := pyIndex_ofNat dl 0 [] hd0
    rw [hget0] at h'
    exact h'
  have hpr0 : pyIndex r0 0 = Except.ok (r0.getD 0 0) :=
    pyIndex_ofNat r0 0 0 (by omega)
  have hpr1 : pyIndex r0 1 = Except.ok (r0.getD 1 0) :=
    pyIndex_ofNat r0 1 0 (by omega)
  have hp1 : pyIndex dl 1 = Except.ok (dl.getD 1 []) :=
    pyIndex_ofNat dl 1 [] (by omega)
  have hmap : mapME (fun i => do
      let rn ← pyIndex dl i
      let a ← pyIndex rn 0
      let b ← pyIndex rn 1
      Except.ok (PyCell.num a, b)) (intRange 2 ((n : Int) + 1 + 1)) =
      Except.ok ((intRange 2 ((n : Int) + 1 + 1)).map (fun i =>
        (PyCell.num ((dl.getD i.toNat []).getD 0 0), (dl.getD i.toNat []).getD 1 0))) := by
    apply mapME_ok_of
    intro i hi
    obtain ⟨hi2, hiu⟩ := intRange_mem hi
    have hit : i = ((i.toNat : Nat) : Int) := by omega
    have hlt : i.toNat < dl.length := by omega
    have hpi : pyIndex dl i = Except.ok (dl.getD i.toNat []) := by
      rw [hit]
      exact pyIndex_ofNat dl i.toNat [] hlt
    have hrlen : 2 ≤ (dl.getD i.toNat []).length := by
      apply hrows
      · omega
      · omega
    have ha : pyIndex (dl.getD i.toNat []) 0 =
        Except.ok ((dl.getD i.toNat []).getD 0 0) :=
      pyIndex_ofNat (dl.getD i.toNat []) 0 0 (by omega)
    have hb : pyIndex (dl.getD i.toNat []) 1 =
        Except.ok ((dl.getD i.toNat []).getD 1 0) :=
      pyIndex_ofNat (dl.getD i.toNat []) 1 0 (by omega)
    simp only [hpi, Bind.bind, Except.bind, ha, hb]
  unfold lanczosSection
  simp only [Bind.bind, Except.bind] at hmap ⊢
  simp only [hp0, hpr0, hn, hpr1, hp1]
  rw [hmap]
  refine ⟨_, rfl, rfl, rfl, ?_, ?_, ?_⟩
  · simp only [Option.getD_some, List.length_cons, List.length_map, intRange_length]
    omega
  · exact ⟨_, rfl⟩
  · have heq : pySliceFrom dl ((n : Int) + 1 + 1) = dl.drop (n + 2) := by
      unfold pySliceFrom
      rw [if_neg (show ¬ ((n : Int) + 1 + 1 < 0) by omega)]
      congr 1
    rw [heq]

/-- C3 amended witness: the amended theorem applied to `c3data` (with
`n = 1`): two tridiagonal rows, second column of the first row 0, and the
records from index 3 on as eigenvalues. -/
theorem C3_lanczos_amended_witness :
    ∃ l, lanczosSection c3data = Except.ok l ∧
      l.x_ocean_n_tridiagonal_matrix = some 2 ∧
      l.x_ocean_scaling_factor = some 10 ∧
      (l.x_ocean_tridiagonal_matrix.getD []).length = 2 ∧
      (∃ rest, l.x_ocean_tridiagonal_matrix = some ((PyCell.arr [5, 6], 0) :: rest)) ∧
      l.x_ocean_eigenvalues = some [[9, 9]] := by
  have h := C3_lanczos_amended c3data [1, 10] 1 (by decide) (by decide) (by decide)
    (by decide) (by decide)
  simpa [c3data] using h

/-- C7 witness: the general theorem evaluated on a concrete two-row table. -/
theorem C7_spectra_columns_witness :
    spectraSection [[1, 4, 5], [2, 6, 7]] "xas" = Except.ok
      { type := some (pyToUpper "xas"), n_energies := some 2,
        excitation_energies := some [1, 2], intensities := some [5, 7] } := by
  have h := C7_spectra_columns [[1, 4, 5], [2, 6, 7]] "xas" (by decide)
  exact h.1

end Ocean
